import Mathlib

/-!
Shallow embedding of the failure-reporting and label-propagation subsystem
(`src/error.rs`, `src/label.rs`): the span algebra on ranges, the default
error type `Simple` with its pattern type `SimplePattern`, and the
`Labelled` combinator's `go` algorithm over the engine's error accumulator.
-/

/-- A range span `start..stop` over positions, from `impl Span for Range<T>`
in `error.rs` (`stop` models Rust's `end` field, a reserved word in Lean). -/
structure Range (T : Type) where
  start : T
  stop : T
deriving DecidableEq, Repr

/-- `Range::union` from `error.rs`: `self.start.min(other.start)..self.end.max(other.end)`. -/
def Range.union [LinearOrder T] (self other : Range T) : Range T :=
  { start := min self.start other.start, stop := max self.stop other.stop }

/-- `Range::inner` from `error.rs`: returns `self.end..other.start` when
`self.end <= other.start`, and panics otherwise; the panic is modelled as `none`. -/
def Range.inner [LinearOrder T] (self other : Range T) : Option (Range T) :=
  if self.stop ≤ other.start then
    some { start := self.stop, stop := other.start }
  else
    none

/-- `Range::display` from `error.rs`: `format!("{}..{}", self.start, self.end)`,
with the position's rendering passed in as `tos`. -/
def Range.display (tos : T → String) (self : Range T) : String :=
  tos self.start ++ ".." ++ tos self.stop

/-- `SimplePattern<I>` from `error.rs`: either a named pattern or a concrete token. -/
inductive SimplePattern (I : Type) where
  | Labelled (s : String)
  | Token (x : I)
deriving DecidableEq, Repr

/-- `From<&'static str> for SimplePattern<I>` from `error.rs`: a string literal
becomes the `Labelled` variant. -/
def SimplePattern.fromStr (s : String) : SimplePattern I :=
  SimplePattern.Labelled s

/-- `Display for SimplePattern` from `error.rs`: `Labelled(s)` renders as `s`,
`Token(x)` renders as `'<x>'`; the token's rendering is passed in as `tok`. -/
def SimplePattern.display (tok : I → String) : SimplePattern I → String
  | SimplePattern.Labelled s => s
  | SimplePattern.Token x => "'" ++ tok x ++ "'"

/-- `Simple<I, S>` from `error.rs`: a span, an ordered list of expected patterns,
and an optional found token (`none` = unexpected end of input). -/
structure Simple (I : Type) (S : Type) where
  span : S
  expected : List (SimplePattern I)
  found : Option I
deriving DecidableEq, Repr

/-- `Simple::expected_token_found` from `error.rs`: wrap each expected token as a
`Token` pattern. -/
def Simple.expected_token_found (span : S) (expected : List I) (found : Option I) :
    Simple I S :=
  { span := span, expected := expected.map SimplePattern.Token, found := found }

/-- `Simple::into_labelled` from `error.rs`: `self.expected = vec![label.into()]`. -/
def Simple.into_labelled (self : Simple I S) (label : SimplePattern I) : Simple I S :=
  { self with expected := [label] }

/-- `Error::expected_label_found` default method from `error.rs`:
construct with an empty expected list, then relabel. -/
def Simple.expected_label_found (span : S) (label : SimplePattern I) (found : Option I) :
    Simple I S :=
  (Simple.expected_token_found span [] found).into_labelled label

/-- `Simple::merge` from `error.rs`: `self.expected.append(&mut other.expected); self`. -/
def Simple.merge (self other : Simple I S) : Simple I S :=
  { self with expected := self.expected ++ other.expected }

/-- `Display for Simple` from `error.rs`: a found/ended lead-in followed by an
expected clause chosen by the shape of the expected list; the renderings of
tokens and spans are passed in as `tok` and `sp`. -/
def Simple.display (tok : I → String) (sp : S → String) (self : Simple I S) : String :=
  (match self.found with
    | some found => "found '" ++ tok found ++ "' " ++ "at " ++ sp self.span ++ " "
    | none => "the input ended ") ++
  (match self.expected with
    | [] => "but end of input was expected"
    | [e] => "but " ++ e.display tok ++ " was expected"
    | es => "but one of " ++ String.intercalate ", " (es.map (fun e => e.display tok)) ++
        " was expected")

/-- Follows the spec's display algorithm, written from its words: render
`found '<found>' at <span> ` or `the input ended `, then by expected-list
length 0/1/many render `but end of input was expected`, `but <pattern> was
expected`, or `but one of <p1>, <p2>, ... was expected` (comma-joined,
insertion order). -/
def Simple.displaySpec (tok : I → String) (sp : S → String) (self : Simple I S) : String :=
  let lead :=
    if h : self.found.isSome then
      "found '" ++ tok (self.found.get h) ++ "' at " ++ sp self.span ++ " "
    else
      "the input ended "
  let clause :=
    if self.expected.length = 0 then
      "but end of input was expected"
    else if self.expected.length = 1 then
      "but " ++ String.intercalate ", " (self.expected.map (fun e => e.display tok)) ++
        " was expected"
    else
      "but one of " ++ String.intercalate ", " (self.expected.map (fun e => e.display tok)) ++
        " was expected"
  lead ++ clause

/-- An error paired with the cursor position at which it occurred (the engine's
`Located` entries in the alternative slot and the secondary-error list). -/
structure AltErr (ε : Type) where
  pos : Nat
  err : ε
deriving DecidableEq, Repr

/-- The slice of the engine's state that `Labelled::go` in `label.rs` reads and
writes: the input cursor location, the accumulator's best-alternative slot
`alt`, and the ordered secondary-error list. Cursor locations are modelled as
naturals (`I::cursor_location` yields a totally ordered location) and the spans
built by `I::span(cache, a..b)` as the pair of locations `(a, b)`. -/
structure ParserState (ε : Type) where
  cursor : Nat
  alt : Option (AltErr ε)
  secondary : List (AltErr ε)
deriving DecidableEq, Repr

/-- The `Labelled` combinator configuration from `label.rs`: an inner parser,
a label, and the `is_context` flag. -/
structure Labelled (A : Type) (L : Type) where
  parser : A
  label : L
  is_context : Bool

/-- `Labelled::as_context` from `label.rs`: set `is_context`. -/
def Labelled.as_context (self : Labelled A L) : Labelled A L :=
  { self with is_context := true }

/-- The rewriting `Labelled::go` applies to the inner run's best-alternative
failure (`label.rs` lines 60-68): relabel when its location equals the entry
location, wrap in context when `is_context` is set and it lies strictly after,
otherwise leave it alone. `labelWith` and `inContext` stand for the
`LabelError` capability methods `label_with` and `in_context`. -/
def Labelled.relabelAlt (label : L) (is_ctx : Bool)
    (labelWith : ε → L → ε) (inContext : ε → L → Nat × Nat → ε)
    (before : Nat) (na : AltErr ε) : AltErr ε :=
  if na.pos = before then
    { na with err := labelWith na.err label }
  else if is_ctx ∧ before < na.pos then
    { na with err := inContext na.err label (before, na.pos) }
  else
    na

/-- `Labelled::go` from `label.rs`, with the engine's narrow interface passed in:
`addAltErr` is the engine's `add_alt_err` merge into the alternative slot, and
the inner parser is a state transformer returning `Option α` (`none` =
failure). The algorithm: detach `alt`, save the cursor and secondary count, run
the inner parser, restore `alt`, rewrite and re-insert the inner run's
alternative failure, and when `is_context` is set wrap every secondary error
recorded since entry in context. -/
def Labelled.go (self : Labelled (ParserState ε → Option α × ParserState ε) L)
    (labelWith : ε → L → ε) (inContext : ε → L → Nat × Nat → ε)
    (addAltErr : Option (AltErr ε) → Nat → ε → Option (AltErr ε))
    (inp : ParserState ε) : Option α × ParserState ε :=
  let old_alt := inp.alt
  let before_cursor := inp.cursor
  let before_count := inp.secondary.length
  let r := self.parser { inp with alt := none }
  let s1 := r.2
  let new_alt := s1.alt
  let s2 := { s1 with alt := old_alt }
  let s3 :=
    match new_alt with
    | none => s2
    | some na =>
      let na := Labelled.relabelAlt self.label self.is_context labelWith inContext
        before_cursor na
      { s2 with alt := addAltErr s2.alt na.pos na.err }
  let s4 :=
    if self.is_context then
      { s3 with secondary :=
          s3.secondary.take before_count ++
          (s3.secondary.drop before_count).map (fun e =>
            { e with err := inContext e.err self.label (before_cursor, e.pos) }) }
    else s3
  (r.1, s4)

/-- Modelled from the spec: `label_with` for the default error type is the
in-place equivalent of `into_labelled` (the `LabelError` implementation for
`Simple` is not among the visible sources; §4.4 defines it as exactly
`into_labelled` applied to the stored value). -/
def Simple.label_with (self : Simple I S) (label : String) : Simple I S :=
  self.into_labelled (SimplePattern.fromStr label)

/-- Modelled from the spec: a default-style context-capable error, carrying a
base `Simple` error plus the ordered context stack that `in_context` pushes
`(label, span)` onto (§4.4; the `LabelError` implementation is not among the
visible sources). -/
structure ContextErr (I : Type) (S : Type) where
  base : Simple I S
  contexts : List (String × Nat × Nat)
deriving DecidableEq, Repr

/-- Modelled from the spec: `in_context` pushes `(label, span)` onto the
error's context stack and changes nothing else (§4.4). -/
def ContextErr.in_context (self : ContextErr I S) (label : String) (span : Nat × Nat) :
    ContextErr I S :=
  { self with contexts := (label, span) :: self.contexts }

/-- Modelled from the spec: `label_with` for the context-capable default-style
error relabels the base error's expected set (§4.4). -/
def ContextErr.label_with (self : ContextErr I S) (label : String) : ContextErr I S :=
  { self with base := self.base.label_with label }

/-- Concrete error fixture: expected the token `0`, found `a` at `0..1`. -/
def cErrDigit : Simple Char (Range Nat) :=
  { span := { start := 0, stop := 1 },
    expected := [SimplePattern.Token '0'],
    found := some 'a' }

/-- Concrete engine `add_alt_err`: always adopt the new candidate at its position. -/
def cAdd : Option (AltErr ε) → Nat → ε → Option (AltErr ε) :=
  fun _ p e => some { pos := p, err := e }

/-- Concrete `in_context` stand-in for the plain `Simple` fixtures. -/
def cIC : Simple Char (Range Nat) → String → Nat × Nat → Simple Char (Range Nat) :=
  fun e _ _ => e

/-- Concrete initial engine state at cursor `0` with empty accumulator. -/
def cState : ParserState (Simple Char (Range Nat)) :=
  { cursor := 0, alt := none, secondary := [] }

/-- Concrete inner parser that fails at the entry position, leaving `cErrDigit`
in the alternative slot. -/
def cInnerAt0 : ParserState (Simple Char (Range Nat)) →
    Option Unit × ParserState (Simple Char (Range Nat)) :=
  fun s => (none, { s with alt := some { pos := 0, err := cErrDigit } })

/-- Concrete `Labelled` instance: label `digit`, no context flag. -/
def cSelfDigit :
    Labelled (ParserState (Simple Char (Range Nat)) →
      Option Unit × ParserState (Simple Char (Range Nat))) String :=
  { parser := cInnerAt0, label := "digit", is_context := false }

/-- Concrete context-capable error fixture: expected `)`, input ended at `2..3`. -/
def cErrParen : ContextErr Char (Range Nat) :=
  { base := { span := { start := 2, stop := 3 },
              expected := [SimplePattern.Token ')'],
              found := none },
    contexts := [] }

/-- Concrete inner parser over context-capable errors that makes progress and
fails at position `2`. -/
def cInnerAt2 : ParserState (ContextErr Char (Range Nat)) →
    Option Unit × ParserState (ContextErr Char (Range Nat)) :=
  fun s => (none, { s with cursor := 2, alt := some { pos := 2, err := cErrParen } })

/-- Concrete context-flagged `Labelled` instance with label `parenthesized`. -/
def cSelfParen :
    Labelled (ParserState (ContextErr Char (Range Nat)) →
      Option Unit × ParserState (ContextErr Char (Range Nat))) String :=
  { parser := cInnerAt2, label := "parenthesized", is_context := true }

/-- Concrete initial state over context-capable errors, with one pre-existing
secondary error recorded before entry. -/
def cStateCtx : ParserState (ContextErr Char (Range Nat)) :=
  { cursor := 0, alt := none, secondary := [{ pos := 0, err := cErrParen }] }

/-- Concrete inner parser over context-capable errors that records one new
secondary error at position `1` and leaves no alternative failure. -/
def cInnerSecondary : ParserState (ContextErr Char (Range Nat)) →
    Option Unit × ParserState (ContextErr Char (Range Nat)) :=
  fun s => (none, { s with cursor := 1,
                           secondary := s.secondary ++ [{ pos := 1, err := cErrParen }] })

/-- Concrete context-flagged `Labelled` instance wrapping `cInnerSecondary`. -/
def cSelfSecondary :
    Labelled (ParserState (ContextErr Char (Range Nat)) →
      Option Unit × ParserState (ContextErr Char (Range Nat))) String :=
  { parser := cInnerSecondary, label := "parenthesized", is_context := true }

/-- Concrete inner parser whose alternative failure sits strictly before the
entry cursor (at position `1`). -/
def cInnerBehind : ParserState (ContextErr Char (Range Nat)) →
    Option Unit × ParserState (ContextErr Char (Range Nat)) :=
  fun s => (none, { s with alt := some { pos := 1, err := cErrParen } })

/-- Concrete context-flagged `Labelled` instance wrapping `cInnerBehind`. -/
def cSelfBehind :
    Labelled (ParserState (ContextErr Char (Range Nat)) →
      Option Unit × ParserState (ContextErr Char (Range Nat))) String :=
  { parser := cInnerBehind, label := "parenthesized", is_context := true }

/-- Concrete initial state over context-capable errors at cursor `3`. -/
def cStateAt3 : ParserState (ContextErr Char (Range Nat)) :=
  { cursor := 3, alt := none, secondary := [] }

theorem Labelled.relabelAlt_pos {ε L : Type} (label : L) (is_ctx : Bool)
    (labelWith : ε → L → ε) (inContext : ε → L → Nat × Nat → ε)
    (before : Nat) (na : AltErr ε) :
    (Labelled.relabelAlt label is_ctx labelWith inContext before na).pos = na.pos := by
  unfold Labelled.relabelAlt
  split_ifs <;> rfl

theorem Labelled.go_alt_eq {ε α L : Type}
    (self : Labelled (ParserState ε → Option α × ParserState ε) L)
    (labelWith : ε → L → ε) (inContext : ε → L → Nat × Nat → ε)
    (addAltErr : Option (AltErr ε) → Nat → ε → Option (AltErr ε))
    (inp : ParserState ε) :
    (self.go labelWith inContext addAltErr inp).2.alt =
      match (self.parser { inp with alt := none }).2.alt with
      | none => inp.alt
      | some na =>
        addAltErr inp.alt na.pos
          (Labelled.relabelAlt self.label self.is_context labelWith inContext
            inp.cursor na).err := by
  unfold Labelled.go
  cases h : (self.parser { inp with alt := none }).2.alt <;>
    cases hic : self.is_context <;>
    simp [h, hic, Labelled.relabelAlt_pos]

theorem Labelled.go_secondary_eq {ε α L : Type}
    (self : Labelled (ParserState ε → Option α × ParserState ε) L)
    (labelWith : ε → L → ε) (inContext : ε → L → Nat × Nat → ε)
    (addAltErr : Option (AltErr ε) → Nat → ε → Option (AltErr ε))
    (inp : ParserState ε) :
    (self.go labelWith inContext addAltErr inp).2.secondary =
      if self.is_context then
        (self.parser { inp with alt := none }).2.secondary.take inp.secondary.length ++
        ((self.parser { inp with alt := none }).2.secondary.drop inp.secondary.length).map
          (fun e => { e with err := inContext e.err self.label (inp.cursor, e.pos) })
      else (self.parser { inp with alt := none }).2.secondary := by
  unfold Labelled.go
  cases h : (self.parser { inp with alt := none }).2.alt <;>
    cases hic : self.is_context <;>
    simp [h, hic]

/-- C1: when the inner parser leaves a best-alternative failure at the cursor
position saved at entry, `Labelled::go` applies `label_with(label)` to it
before re-inserting it via `add_alt_err` at its position, and with `Simple`'s
relabel semantics the failure's expected set becomes exactly the single given
label, discarding all previously expected tokens. -/
theorem labelled_go_direct_relabel {I S α : Type}
    (self : Labelled (ParserState (Simple I S) →
      Option α × ParserState (Simple I S)) String)
    (inContext : Simple I S → String → Nat × Nat → Simple I S)
    (addAltErr : Option (AltErr (Simple I S)) → Nat → Simple I S →
      Option (AltErr (Simple I S)))
    (inp : ParserState (Simple I S)) (na : AltErr (Simple I S))
    (halt : (self.parser { inp with alt := none }).2.alt = some na)
    (hpos : na.pos = inp.cursor) :
    (self.go Simple.label_with inContext addAltErr inp).2.alt =
      addAltErr inp.alt na.pos
        (na.err.into_labelled (SimplePattern.Labelled self.label)) ∧
    (na.err.into_labelled (SimplePattern.Labelled self.label)).expected =
      [SimplePattern.Labelled self.label] := by
  refine ⟨?_, rfl⟩
  rw [Labelled.go_alt_eq, halt]
  unfold Labelled.relabelAlt
  simp [hpos, Simple.label_with, SimplePattern.fromStr]

/-- C1 witness: the `digit` label wrapping a failure at the entry position. -/
theorem labelled_go_direct_relabel_witness :
    (cSelfDigit.go Simple.label_with cIC cAdd cState).2.alt =
      cAdd cState.alt 0
        (cErrDigit.into_labelled (SimplePattern.Labelled "digit")) ∧
    (cErrDigit.into_labelled (SimplePattern.Labelled "digit")).expected =
      [SimplePattern.Labelled "digit"] :=
  labelled_go_direct_relabel cSelfDigit cIC cAdd cState
    { pos := 0, err := cErrDigit } rfl rfl

/-- C2: with `is_context` set and the inner run's best-alternative failure
strictly after the entry position, `Labelled::go` calls `in_context(label,
span)` on it with the span running from the entry position to the failure
position; the context push leaves the base error, and hence the expected
set, unchanged while recording the `(label, span)` entry. -/
theorem labelled_go_context_wrap {I S α : Type}
    (self : Labelled (ParserState (ContextErr I S) →
      Option α × ParserState (ContextErr I S)) String)
    (labelWith : ContextErr I S → String → ContextErr I S)
    (addAltErr : Option (AltErr (ContextErr I S)) → Nat → ContextErr I S →
      Option (AltErr (ContextErr I S)))
    (inp : ParserState (ContextErr I S)) (na : AltErr (ContextErr I S))
    (hctx : self.is_context = true)
    (halt : (self.parser { inp with alt := none }).2.alt = some na)
    (hpos : inp.cursor < na.pos) :
    (self.go labelWith ContextErr.in_context addAltErr inp).2.alt =
      addAltErr inp.alt na.pos
        (na.err.in_context self.label (inp.cursor, na.pos)) ∧
    (na.err.in_context self.label (inp.cursor, na.pos)).base = na.err.base ∧
    (na.err.in_context self.label (inp.cursor, na.pos)).base.expected =
      na.err.base.expected ∧
    (na.err.in_context self.label (inp.cursor, na.pos)).contexts =
      (self.label, (inp.cursor, na.pos)) :: na.err.contexts := by
  refine ⟨?_, rfl, rfl, rfl⟩
  rw [Labelled.go_alt_eq, halt]
  unfold Labelled.relabelAlt
  simp [hctx, hpos, Nat.ne_of_gt hpos]

/-- C2 witness: a `parenthesized` context label wrapping a failure two
positions after entry. -/
theorem labelled_go_context_wrap_witness :
    (cSelfParen.go ContextErr.label_with ContextErr.in_context cAdd cStateCtx).2.alt =
      cAdd cStateCtx.alt 2 (cErrParen.in_context "parenthesized" (0, 2)) ∧
    (cErrParen.in_context "parenthesized" (0, 2)).base = cErrParen.base ∧
    (cErrParen.in_context "parenthesized" (0, 2)).base.expected =
      cErrParen.base.expected ∧
    (cErrParen.in_context "parenthesized" (0, 2)).contexts =
      ("parenthesized", (0, 2)) :: cErrParen.contexts :=
  labelled_go_context_wrap cSelfParen ContextErr.label_with cAdd cStateCtx
    { pos := 2, err := cErrParen } rfl rfl (by decide)

/-- C3: `Labelled::go` applies `in_context` to secondary errors iff
`is_context` is set, and then exactly to the ones recorded strictly after the
error count saved at entry, each with the span from the entry position to that
error's position; secondary errors recorded before entry come through
unmodified. -/
theorem labelled_go_secondary_context {ε α L : Type}
    (self : Labelled (ParserState ε → Option α × ParserState ε) L)
    (labelWith : ε → L → ε) (inContext : ε → L → Nat × Nat → ε)
    (addAltErr : Option (AltErr ε) → Nat → ε → Option (AltErr ε))
    (inp : ParserState ε) (newErrs : List (AltErr ε))
    (hsec : (self.parser { inp with alt := none }).2.secondary =
      inp.secondary ++ newErrs) :
    (self.is_context = true →
      (self.go labelWith inContext addAltErr inp).2.secondary =
        inp.secondary ++ newErrs.map (fun e =>
          { e with err := inContext e.err self.label (inp.cursor, e.pos) })) ∧
    (self.is_context = false →
      (self.go labelWith inContext addAltErr inp).2.secondary =
        inp.secondary ++ newErrs) := by
  constructor <;> intro hic <;>
    rw [Labelled.go_secondary_eq, hic] <;>
    simp [hsec, List.take_left, List.drop_left]

/-- C3 witness: one secondary error recorded before entry stays untouched while
the one recorded during the run is wrapped in context. -/
theorem labelled_go_secondary_context_witness :
    (cSelfSecondary.go ContextErr.label_with ContextErr.in_context cAdd
        cStateCtx).2.secondary =
      cStateCtx.secondary ++
        ([{ pos := 1, err := cErrParen }] : List (AltErr (ContextErr Char (Range Nat)))).map
          (fun e =>
            { e with err := ContextErr.in_context e.err "parenthesized" (0, e.pos) }) :=
  (labelled_go_secondary_context cSelfSecondary ContextErr.label_with
    ContextErr.in_context cAdd cStateCtx [{ pos := 1, err := cErrParen }] rfl).1 rfl

/-- C7: `Labelled::go` returns exactly the result value produced by the inner
parser's invocation; success or failure of matching is untouched, only the
error accumulator is rewritten. -/
theorem labelled_go_preserves_result {ε α L : Type}
    (self : Labelled (ParserState ε → Option α × ParserState ε) L)
    (labelWith : ε → L → ε) (inContext : ε → L → Nat × Nat → ε)
    (addAltErr : Option (AltErr ε) → Nat → ε → Option (AltErr ε))
    (inp : ParserState ε) :
    (self.go labelWith inContext addAltErr inp).1 =
      (self.parser { inp with alt := none }).1 := rfl

/-- C8: `Labelled::go` hands `add_alt_err` the best-alternative slot exactly as
it was detached at entry; when the inner run leaves no alternative failure the
slot is restored verbatim, and when it leaves one, that failure — rewritten by
`relabelAlt`, which never moves it — is re-inserted at its original position. -/
theorem labelled_go_restores_alt {ε α L : Type}
    (self : Labelled (ParserState ε → Option α × ParserState ε) L)
    (labelWith : ε → L → ε) (inContext : ε → L → Nat × Nat → ε)
    (addAltErr : Option (AltErr ε) → Nat → ε → Option (AltErr ε))
    (inp : ParserState ε) :
    ((self.parser { inp with alt := none }).2.alt = none →
      (self.go labelWith inContext addAltErr inp).2.alt = inp.alt) ∧
    (∀ na, (self.parser { inp with alt := none }).2.alt = some na →
      (Labelled.relabelAlt self.label self.is_context labelWith inContext
          inp.cursor na).pos = na.pos ∧
      (self.go labelWith inContext addAltErr inp).2.alt =
        addAltErr inp.alt na.pos
          (Labelled.relabelAlt self.label self.is_context labelWith inContext
            inp.cursor na).err) := by
  constructor
  · intro h
    rw [Labelled.go_alt_eq, h]
  · intro na h
    exact ⟨Labelled.relabelAlt_pos _ _ _ _ _ _, by rw [Labelled.go_alt_eq, h]⟩

/-- C8 witness: with an outer alternative in the slot at entry and an inner run
leaving none, the slot is restored; the `digit` fixture shows re-insertion. -/
theorem labelled_go_restores_alt_witness :
    (Labelled.go
        { parser := fun s => ((none : Option Unit), { s with cursor := 2 }),
          label := "digit", is_context := false }
        Simple.label_with cIC cAdd
        { cState with alt := some { pos := 5, err := cErrDigit } }).2.alt =
      some { pos := 5, err := cErrDigit } ∧
    (cSelfDigit.go Simple.label_with cIC cAdd cState).2.alt =
      cAdd cState.alt 0
        (Labelled.relabelAlt cSelfDigit.label cSelfDigit.is_context
          Simple.label_with cIC cState.cursor { pos := 0, err := cErrDigit }).err :=
  ⟨(labelled_go_restores_alt
      { parser := fun s => ((none : Option Unit), { s with cursor := 2 }),
        label := "digit", is_context := false }
      Simple.label_with cIC cAdd
      { cState with alt := some { pos := 5, err := cErrDigit } }).1 rfl,
   ((labelled_go_restores_alt cSelfDigit Simple.label_with cIC cAdd cState).2
      { pos := 0, err := cErrDigit } rfl).2⟩

/-- C9: a best-alternative failure positioned strictly before the entry cursor
is re-inserted completely unmodified — neither `label_with` nor `in_context`
is applied — even when `is_context` is set. -/
theorem labelled_go_leaves_earlier_failure {ε α L : Type}
    (self : Labelled (ParserState ε → Option α × ParserState ε) L)
    (labelWith : ε → L → ε) (inContext : ε → L → Nat × Nat → ε)
    (addAltErr : Option (AltErr ε) → Nat → ε → Option (AltErr ε))
    (inp : ParserState ε) (na : AltErr ε)
    (halt : (self.parser { inp with alt := none }).2.alt = some na)
    (hpos : na.pos < inp.cursor) :
    (self.go labelWith inContext addAltErr inp).2.alt =
      addAltErr inp.alt na.pos na.err := by
  rw [Labelled.go_alt_eq, halt]
  unfold Labelled.relabelAlt
  simp [Nat.ne_of_lt hpos, Nat.lt_asymm hpos]

/-- C9 witness: a context-flagged label leaves a failure recorded before entry
untouched. -/
theorem labelled_go_leaves_earlier_failure_witness :
    (cSelfBehind.go ContextErr.label_with ContextErr.in_context cAdd
        cStateAt3).2.alt =
      cAdd cStateAt3.alt 1 cErrParen :=
  labelled_go_leaves_earlier_failure cSelfBehind ContextErr.label_with
    ContextErr.in_context cAdd cStateAt3 { pos := 1, err := cErrParen } rfl
    (by decide)

/-- C4: `Simple::merge` concatenates the second error's expected patterns onto
the first's, in order, and keeps the first error's span and found token. -/
theorem simple_merge_concat {I S : Type} (a b : Simple I S) :
    (a.merge b).expected = a.expected ++ b.expected ∧
    (a.merge b).span = a.span ∧
    (a.merge b).found = a.found :=
  ⟨rfl, rfl, rfl⟩

/-- C10: `Simple::into_labelled` replaces only the expected-pattern sequence
(with the single given label); span and found token are unchanged. -/
theorem simple_into_labelled_frame {I S : Type} (e : Simple I S)
    (l : SimplePattern I) :
    (e.into_labelled l).expected = [l] ∧
    (e.into_labelled l).span = e.span ∧
    (e.into_labelled l).found = e.found :=
  ⟨rfl, rfl, rfl⟩

/-- C6: `Range::union` is the pointwise min/max span, and `Range::inner` yields
the exact between-span when the first span ends no later than the second
starts, and fails (modelled `none` for the panic) otherwise. -/
theorem range_union_inner {T : Type} [LinearOrder T] (a b c d : T)
    (s1 s2 : Range T) :
    Range.union { start := a, stop := b } { start := c, stop := d } =
      { start := min a c, stop := max b d } ∧
    (s1.stop ≤ s2.start →
      s1.inner s2 = some { start := s1.stop, stop := s2.start }) ∧
    (¬ s1.stop ≤ s2.start → s1.inner s2 = none) := by
  refine ⟨rfl, fun h => ?_, fun h => ?_⟩ <;> simp [Range.inner, h]

/-- C6 witness: concrete union and both `inner` outcomes over naturals. -/
theorem range_union_inner_witness :
    Range.union { start := 2, stop := 5 } { start := 1, stop := 7 } =
      ({ start := 1, stop := 7 } : Range Nat) ∧
    Range.inner { start := 0, stop := 2 } ({ start := 3, stop := 5 } : Range Nat) =
      some { start := 2, stop := 3 } ∧
    Range.inner { start := 3, stop := 5 } ({ start := 0, stop := 2 } : Range Nat) =
      none := by
  have h := range_union_inner 2 5 1 7 ({ start := 0, stop := 2 } : Range Nat)
    { start := 3, stop := 5 }
  have h' := range_union_inner 3 5 0 2 ({ start := 3, stop := 5 } : Range Nat)
    { start := 0, stop := 2 }
  exact ⟨by simpa using h.1, h.2.1 (by decide), h'.2.2 (by decide)⟩

/-- C5: the display form of a `Simple` error is the found/ended lead-in
followed by the 0/1/many expected clause described by the spec
(`displaySpec`), and the two canonical instances render exactly as stated. -/
theorem simple_display_matches_spec :
    (∀ (I S : Type) (tok : I → String) (sp : S → String) (e : Simple I S),
      e.display tok sp = e.displaySpec tok sp) ∧
    Simple.display (fun c : Char => String.mk [c]) (Range.display toString)
      { span := ({ start := 0, stop := 2 } : Range Nat),
        expected := [SimplePattern.Token 'y'], found := some 'x' } =
      "found 'x' at 0..2 but 'y' was expected" ∧
    Simple.display (fun c : Char => String.mk [c]) (Range.display toString)
      ({ span := ({ start := 0, stop := 2 } : Range Nat),
         expected := [], found := none } : Simple Char (Range Nat)) =
      "the input ended but end of input was expected" := by
  refine ⟨?_, by rfl, by rfl⟩
  intro I S tok sp e
  obtain ⟨esp, eexp, efound⟩ := e
  unfold Simple.display Simple.displaySpec
  cases efound <;>
    rcases eexp with _ | ⟨x, _ | ⟨y, rest⟩⟩ <;>
    simp [String.append_assoc, String.intercalate, String.intercalate.go]
